import Mathlib

/-!
Verification development for the valuecell backtest replay and
execution-simulation engine.

The definitions below are a shallow embedding of the Python source:

* `src/python/valuecell/agents/common/trading/data/backtest.py`
  (`BacktestDataSource`) and
  `src/python/valuecell/agents/common/trading/data/stock_backtest.py`
  (`StockBacktestDataSource`).  The clock/query/cache methods
  (`advance_time`, `is_finished`, `get_progress_pct`, `get_current_ts`,
  `reset`, `get_recent_candles`, and the gather/sort/store phase of
  `preload_data` / `_preload_interval`) are character-for-character
  identical in the two classes, so they are embedded once, over a shared
  state type; the two classes differ only in the default interval list
  (`["1m"]` vs `["1d"]`) and in the external provider used by the fetch,
  which is abstracted as a `Provider` argument.
* `src/python/valuecell/agents/common/trading/execution/stock_paper_trading.py`
  (`is_us_market_open`, `StockPaperExecutionGateway.execute`).

Python `float` values (prices, quantities, fees, percentages) are modelled
as `ℚ`; millisecond timestamps as `Int`.  External effects (the YFinance /
CCXT provider, the live price lookup, the wall clock read by
`is_us_market_open`) are passed in as explicit arguments.
-/

namespace Valuecell

/-- Immutable identity of a tradable instrument (symbol plus venue id),
as constructed in `backtest.py` / `stock_backtest.py`. -/
structure InstrumentRef where
  symbol : String
  exchange_id : String
deriving DecidableEq, Repr

/-- One OHLCV bar: millisecond timestamp, instrument, prices, volume and
interval tag, as constructed in `_preload_interval` of both data sources. -/
structure Candle where
  ts : Int
  instrument : InstrumentRef
  open_ : ℚ
  high : ℚ
  low : ℚ
  close : ℚ
  volume : ℚ
  interval : String
deriving DecidableEq, Repr

/-- Python list slice `l[i:]` for an `int` index `i` (negative indices count
from the end, out-of-range indices clamp).  `get_recent_candles` uses
`available[-lookback:]`, i.e. `pySliceFrom available (-lookback)`. -/
def pySliceFrom {α : Type} (l : List α) (i : Int) : List α :=
  if 0 ≤ i then l.drop i.toNat else l.drop (l.length - (-i).toNat)

/-- State shared by `BacktestDataSource` (backtest.py) and
`StockBacktestDataSource` (stock_backtest.py): the configured symbols, the
clock triple `start_ts / end_ts / current_ts`, the candle cache
`{symbol: {interval: [Candle, ...]}}` (a total function returning `[]`
where nothing was stored, matching `defaultdict` /
`cache.get(symbol, {}).get(interval, [])` reads), and the preload flag. -/
structure BacktestState where
  symbols : List String
  start_ts : Int
  end_ts : Int
  current_ts : Int
  candle_cache : String → String → List Candle
  is_preloaded : Bool

/-- Embeds `__init__` of either data source: `current_ts` starts at `start_ts`,
the cache is empty, nothing is preloaded. -/
def BacktestState.init (symbols : List String) (start_ts end_ts : Int) :
    BacktestState :=
  { symbols := symbols
    start_ts := start_ts
    end_ts := end_ts
    current_ts := start_ts
    candle_cache := fun _ _ => []
    is_preloaded := false }

/-- Embeds `sorted(candles, key=lambda c: c.ts)` in `_preload_interval`. -/
def sortByTs (l : List Candle) : List Candle :=
  l.mergeSort (fun a b => a.ts ≤ b.ts)

/-- The external historical-data provider for one `(symbol, interval)`
fetch: `some candles` when the fetch succeeds, `none` when it raises. -/
def Provider : Type :=
  String → String → Option (List Candle)

/-- Embeds `_fetch_symbol` in `_preload_interval` of both data sources: the body
of the `try` returns the fetched candles; the `except` clause logs a
warning and returns `[]`, discarding anything fetched so far. -/
def fetchSymbol (provider : Provider) (symbol interval : String) :
    List Candle :=
  match provider symbol interval with
  | some candles => candles
  | none => []

/-- Embeds `_preload_interval` (both data sources): fetch every configured symbol,
then store `sorted(candles, key=lambda c: c.ts)` in the cache under
`(symbol, interval)`. -/
def preloadInterval (provider : Provider) (st : BacktestState)
    (interval : String) : BacktestState :=
  { st with candle_cache := fun sym itv =>
      if sym ∈ st.symbols ∧ itv = interval then
        sortByTs (fetchSymbol provider sym interval)
      else st.candle_cache sym itv }

/-- Embeds `preload_data` (both data sources, parameterised by the class's default
interval list — `["1m"]` for `BacktestDataSource`, `["1d"]` for
`StockBacktestDataSource`): if already preloaded, return unchanged
(logged no-op); otherwise `intervals = intervals or default`, preload each
interval in order, then set the preloaded flag. -/
def preload_data (defaultIntervals : List String) (provider : Provider)
    (st : BacktestState) (intervals : Option (List String)) : BacktestState :=
  if st.is_preloaded then st
  else
    let itvs := match intervals with
      | none => defaultIntervals
      | some l => if l.isEmpty then defaultIntervals else l
    let st1 := itvs.foldl (preloadInterval provider) st
    { st1 with is_preloaded := true }

/-- Embeds `BacktestDataSource.preload_data` (backtest.py line 78): default
intervals `["1m"]`. -/
def BacktestDataSource.preload_data (provider : Provider)
    (st : BacktestState) (intervals : Option (List String)) : BacktestState :=
  Valuecell.preload_data ["1m"] provider st intervals

/-- Embeds `StockBacktestDataSource.preload_data` (stock_backtest.py line 81):
default intervals `["1d"]`. -/
def StockBacktestDataSource.preload_data (provider : Provider)
    (st : BacktestState) (intervals : Option (List String)) : BacktestState :=
  Valuecell.preload_data ["1d"] provider st intervals

/-- Embeds `get_recent_candles` (backtest.py line 198 / stock_backtest.py line
213, identical): for each requested symbol, filter that symbol's cached
series to `c.ts <= current_ts` and extend the result with
`available[-lookback:] if available else []`. -/
def get_recent_candles (st : BacktestState) (symbols : List String)
    (interval : String) (lookback : Int) : List Candle :=
  symbols.flatMap fun symbol =>
    let candles := st.candle_cache symbol interval
    let available := candles.filter fun c => c.ts ≤ st.current_ts
    if available.isEmpty then [] else pySliceFrom available (-lookback)

/-- Embeds `advance_time` (backtest.py line 261 / stock_backtest.py line 281,
identical): `current_ts += interval_ms`, no clamping in either direction. -/
def advance_time (st : BacktestState) (interval_ms : Int) : BacktestState :=
  { st with current_ts := st.current_ts + interval_ms }

/-- Embeds `is_finished` (backtest.py line 269 / stock_backtest.py line 289,
identical): `current_ts >= end_ts`. -/
def is_finished (st : BacktestState) : Bool :=
  st.end_ts ≤ st.current_ts

/-- Embeds `get_progress_pct` (backtest.py line 277 / stock_backtest.py line 297,
identical): `100.0` when `end_ts <= start_ts`, else
`min(100.0, (elapsed / total) * 100.0)` — note there is no lower clamp
at 0 in the source. -/
def get_progress_pct (st : BacktestState) : ℚ :=
  if st.end_ts ≤ st.start_ts then 100
  else
    min 100 ((((st.current_ts - st.start_ts : Int) : ℚ) /
      ((st.end_ts - st.start_ts : Int) : ℚ)) * 100)

/-- Embeds `get_current_ts` (both data sources, identical). -/
def get_current_ts (st : BacktestState) : Int :=
  st.current_ts

/-- Embeds `reset` (backtest.py line 297 / stock_backtest.py line 317, identical):
`current_ts = start_ts`. -/
def reset (st : BacktestState) : BacktestState :=
  { st with current_ts := st.start_ts }

/-- The spec's progress formula, stated from its words for comparison with
`get_progress_pct`:
`clamp(100 * (current_ts - start_ts) / (end_ts - start_ts), 0, 100)`,
defined as 100 when `end_ts <= start_ts`. -/
def progress_spec (st : BacktestState) : ℚ :=
  if st.end_ts ≤ st.start_ts then 100
  else
    max 0 (min 100 (100 * (((st.current_ts - st.start_ts : Int) : ℚ) /
      ((st.end_ts - st.start_ts : Int) : ℚ))))

/-- One externally visible operation on the replay clock: an
`advance_time(delta_ms)` call, a `reset()` call, or a read-only query
(`get_recent_candles`, `get_market_snapshot`, `is_finished`, ... — none of
which touch the clock). -/
inductive ClockOp where
  | advance (delta_ms : Int)
  | reset
  | query
deriving DecidableEq, Repr

/-- Effect of one `ClockOp` on the data-source state. -/
def runOp (st : BacktestState) : ClockOp → BacktestState
  | .advance d => advance_time st d
  | .reset => Valuecell.reset st
  | .query => st

/-- Effect of a sequence of clock operations, first to last. -/
def runOps (st : BacktestState) (ops : List ClockOp) : BacktestState :=
  ops.foldl runOp st

/-- Trade direction, from the trading models module (`TradeSide.BUY` /
`TradeSide.SELL` are the only sides used by the stock paper gateway). -/
inductive TradeSide where
  | BUY
  | SELL
deriving DecidableEq, Repr

/-- Terminal status of a transaction result; only `FILLED` and `REJECTED`
are produced by `StockPaperExecutionGateway.execute`. -/
inductive TxStatus where
  | FILLED
  | REJECTED
deriving DecidableEq, Repr

/-- One trade instruction, with the fields `execute` reads:
`instruction_id`, `instrument`, optional explicit `side`, optional
`action` tag, positive `quantity`, optional `max_slippage_bps` override,
optional `leverage`, and opaque `meta`. -/
structure TradeInstruction where
  instruction_id : String
  instrument : InstrumentRef
  side : Option TradeSide
  action : Option String
  quantity : ℚ
  max_slippage_bps : Option ℚ
  leverage : Option ℚ
  meta : Option String
deriving DecidableEq, Repr

/-- Terminal record of one instruction's outcome, with the fields
`execute` writes; fields the source does not pass at a construction site
default to `none`. -/
structure TxResult where
  instruction_id : String
  instrument : InstrumentRef
  side : TradeSide
  requested_qty : ℚ
  filled_qty : ℚ
  avg_exec_price : Option ℚ := none
  slippage_bps : Option ℚ := none
  fee_cost : Option ℚ := none
  leverage : Option ℚ := none
  status : TxStatus
  reason : Option String := none
  meta : Option String := none
deriving DecidableEq, Repr

/-- Configuration of `StockPaperExecutionGateway.__init__`: percentage fee
in basis points, per-share fee, default slippage in basis points, and the
market-hours enforcement flag. -/
structure StockPaperExecutionGateway where
  fee_bps : ℚ
  fee_per_share : ℚ
  slippage_bps : ℚ
  enforce_market_hours : Bool
deriving DecidableEq, Repr

/-- Embeds `is_us_market_open` (stock_paper_trading.py line 29), as a pure
function of the wall-clock reading it performs: `weekday` is Python's
`datetime.weekday()` in US/Eastern (Monday = 0, ..., Sunday = 6) and
`t` is the local time of day in seconds since midnight.  Closed on
Saturday/Sunday (`weekday >= 5`); otherwise open iff
`time(9, 30) <= t <= time(16, 0)`. -/
def is_us_market_open (weekday : Nat) (t : ℚ) : Bool :=
  if 5 ≤ weekday then false
  else decide ((9 * 3600 + 30 * 60 : ℚ) ≤ t ∧ t ≤ 16 * 3600)

/-- Reference-price resolution inside `execute` (stock_paper_trading.py
lines 191-197): `primary` is the result of `_get_current_price(symbol)`
(`none` when it returns `None`), `fallback` is
`float(price_map.get(symbol, 0.0) or 0.0)`; a `None` or non-positive
primary price falls back. -/
def resolveRefPrice (primary : Option ℚ) (fallback : ℚ) : ℚ :=
  match primary with
  | none => fallback
  | some p => if p ≤ 0 then fallback else p

/-- Side resolution inside `execute` (stock_paper_trading.py lines
168-172): `getattr(inst, "side", None) or derive_side_from_action(...) or
TradeSide.BUY`; `deriveSide` stands for the external
`derive_side_from_action` helper. -/
def resolveSide (deriveSide : Option String → Option TradeSide)
    (inst : TradeInstruction) : TradeSide :=
  match inst.side with
  | some s => s
  | none =>
    match deriveSide inst.action with
    | some s => s
    | none => TradeSide.BUY

/-- Slippage selection inside `execute` (stock_paper_trading.py line 215):
`float(inst.max_slippage_bps or self._slippage_bps)`.  Python truthiness
makes a present-but-zero override fall back to the default. -/
def pyOrSlippage (overrideBps : Option ℚ) (default_bps : ℚ) : ℚ :=
  match overrideBps with
  | some v => if v = 0 then default_bps else v
  | none => default_bps

/-- Per-instruction body of `StockPaperExecutionGateway.execute`
(stock_paper_trading.py lines 163-250).  `marketOpen` is the value the
`is_us_market_open()` call returns, `primaryPrice` the
`_get_current_price` lookup, `priceMap` the fallback price map extracted
from the market features (defaulting to 0 for absent symbols), and
`deriveSide` the `derive_side_from_action` helper.  Note that
`slippage_bps`/`fee_cost` are recorded as `None` unless strictly
positive. -/
def executeOne (gw : StockPaperExecutionGateway) (marketOpen : Bool)
    (primaryPrice : String → Option ℚ) (priceMap : String → ℚ)
    (deriveSide : Option String → Option TradeSide)
    (inst : TradeInstruction) : TxResult :=
  let side := resolveSide deriveSide inst
  if gw.enforce_market_hours && !marketOpen then
    { instruction_id := inst.instruction_id
      instrument := inst.instrument
      side := side
      requested_qty := inst.quantity
      filled_qty := 0
      status := TxStatus.REJECTED
      reason := some "market_closed"
      meta := inst.meta }
  else
    let ref_price := resolveRefPrice (primaryPrice inst.instrument.symbol)
      (priceMap inst.instrument.symbol)
    if ref_price ≤ 0 then
      { instruction_id := inst.instruction_id
        instrument := inst.instrument
        side := side
        requested_qty := inst.quantity
        filled_qty := 0
        status := TxStatus.REJECTED
        reason := some "no_price_data"
        meta := inst.meta }
    else
      let slip_bps := pyOrSlippage inst.max_slippage_bps gw.slippage_bps
      let slip := slip_bps / 10000
      let exec_price :=
        if side = TradeSide.BUY then ref_price * (1 + slip)
        else ref_price * (1 - slip)
      let qty := inst.quantity
      let notional := exec_price * qty
      let fee_cost := notional * (gw.fee_bps / 10000) + qty * gw.fee_per_share
      { instruction_id := inst.instruction_id
        instrument := inst.instrument
        side := side
        requested_qty := qty
        filled_qty := qty
        avg_exec_price := some exec_price
        slippage_bps := if 0 < slip_bps then some slip_bps else none
        fee_cost := if 0 < fee_cost then some fee_cost else none
        leverage := inst.leverage
        status := TxStatus.FILLED
        meta := inst.meta }

/-- Embeds `StockPaperExecutionGateway.execute` (stock_paper_trading.py
line 134): one result per instruction, in input order (the empty-input
early return coincides with mapping over the empty list). -/
def execute (gw : StockPaperExecutionGateway) (marketOpen : Bool)
    (primaryPrice : String → Option ℚ) (priceMap : String → ℚ)
    (deriveSide : Option String → Option TradeSide)
    (instructions : List TradeInstruction) : List TxResult :=
  instructions.map (executeOne gw marketOpen primaryPrice priceMap deriveSide)

/-! Concrete fixtures used to instantiate the theorems below on explicit
inputs. -/

/-- A concrete instrument. -/
def instrW : InstrumentRef :=
  { symbol := "AAPL", exchange_id := "yfinance" }

/-- A concrete candle with timestamp 5. -/
def candle5 : Candle :=
  { ts := 5, instrument := instrW, open_ := 1, high := 1, low := 1,
    close := 1, volume := 0, interval := "1m" }

/-- A concrete candle with timestamp 20. -/
def candle20 : Candle :=
  { ts := 20, instrument := instrW, open_ := 2, high := 2, low := 2,
    close := 2, volume := 0, interval := "1m" }

/-- A concrete data-source state: one symbol whose "1m" series holds the
candles at timestamps 5 and 20, with the clock at 10. -/
def stW : BacktestState :=
  { symbols := ["AAPL"]
    start_ts := 0
    end_ts := 100
    current_ts := 10
    candle_cache := fun sym itv =>
      if sym = "AAPL" ∧ itv = "1m" then [candle5, candle20] else []
    is_preloaded := true }

/-- A concrete provider: the fetch for symbol "A" raises (`none`); the
fetch for any other symbol returns the two candles out of order. -/
def provW : Provider :=
  fun sym _ => if sym = "A" then none else some [candle20, candle5]

/-- A concrete gateway with 10 bps fee, no per-share fee, 10 bps default
slippage, market hours not enforced. -/
def gwC2 : StockPaperExecutionGateway :=
  { fee_bps := 10, fee_per_share := 0, slippage_bps := 10,
    enforce_market_hours := false }

/-- A concrete gateway like `gwC2` but with market hours enforced. -/
def gwC7 : StockPaperExecutionGateway :=
  { fee_bps := 10, fee_per_share := 0, slippage_bps := 10,
    enforce_market_hours := true }

/-- A concrete gateway charging no fees at all. -/
def gwZeroFee : StockPaperExecutionGateway :=
  { fee_bps := 0, fee_per_share := 0, slippage_bps := 10,
    enforce_market_hours := false }

/-- A concrete BUY instruction carrying a zero max-slippage override. -/
def instC2 : TradeInstruction :=
  { instruction_id := "i1", instrument := instrW,
    side := some TradeSide.BUY, action := none, quantity := 1,
    max_slippage_bps := some 0, leverage := none, meta := none }

/-- A concrete BUY instruction with no slippage override. -/
def instW2 : TradeInstruction :=
  { instruction_id := "i2", instrument := instrW,
    side := some TradeSide.BUY, action := none, quantity := 2,
    max_slippage_bps := none, leverage := none, meta := none }

/-- A concrete primary price lookup that always returns 100. -/
def primaryC2 : String → Option ℚ :=
  fun _ => some 100

/-- A concrete primary price lookup that always fails. -/
def primaryNone : String → Option ℚ :=
  fun _ => none

/-- A concrete fallback price map with no positive prices. -/
def priceMapC2 : String → ℚ :=
  fun _ => 0

/-- A concrete side-derivation helper that never derives a side. -/
def deriveSideW : Option String → Option TradeSide :=
  fun _ => none

/-! Helper lemmas. -/

/-- Every element of a Python tail slice of `l` is an element of `l`. -/
theorem mem_of_mem_pySliceFrom {α : Type} {l : List α} {i : Int} {a : α}
    (h : a ∈ pySliceFrom l i) : a ∈ l := by
  unfold pySliceFrom at h
  split at h <;> exact List.mem_of_mem_drop h

/-! Claim theorems. -/

/-- C1: no-lookahead invariant — for every clock position `current_ts` and
every call `get_recent_candles(symbols, interval, lookback)` on either
backtest data source (the method is identical in `BacktestDataSource` and
`StockBacktestDataSource` and is embedded once as `get_recent_candles`),
every candle in the returned sequence has `ts ≤ current_ts`; no candle
with a strictly greater timestamp is ever returned. -/
theorem C1_no_lookahead (st : BacktestState) (symbols : List String)
    (interval : String) (lookback : Int) (c : Candle)
    (hc : c ∈ get_recent_candles st symbols interval lookback) :
    c.ts ≤ st.current_ts := by
  simp only [get_recent_candles, List.mem_flatMap] at hc
  obtain ⟨sym, -, hmem⟩ := hc
  split at hmem
  · simp at hmem
  · have h1 := mem_of_mem_pySliceFrom hmem
    have h2 := List.mem_filter.mp h1
    simpa using h2.2

theorem C1_no_lookahead_witness :
    candle5 ∈ get_recent_candles stW ["AAPL"] "1m" 1 ∧
    candle5.ts ≤ stW.current_ts :=
  ⟨by decide, C1_no_lookahead stW ["AAPL"] "1m" 1 candle5 (by decide)⟩

/-- Running a sequence of clock operations whose advance deltas are all
non-negative keeps `start_ts ≤ current_ts` and never changes `start_ts`. -/
theorem runOps_start_le (ops : List ClockOp) (st : BacktestState)
    (h : st.start_ts ≤ st.current_ts)
    (hd : ∀ d : Int, ClockOp.advance d ∈ ops → 0 ≤ d) :
    st.start_ts ≤ (runOps st ops).current_ts ∧
    (runOps st ops).start_ts = st.start_ts := by
  induction ops generalizing st with
  | nil => exact ⟨h, rfl⟩
  | cons op rest ih =>
    have h1 : st.start_ts ≤ (runOp st op).current_ts := by
      cases op with
      | advance d =>
        have hd0 : 0 ≤ d := hd d (by simp)
        simp only [runOp, advance_time]
        omega
      | reset => simp [runOp, Valuecell.reset]
      | query => exact h
    have h2 : (runOp st op).start_ts = st.start_ts := by
      cases op <;> rfl
    have hd' : ∀ d : Int, ClockOp.advance d ∈ rest → 0 ≤ d :=
      fun d hmem => hd d (List.mem_cons_of_mem _ hmem)
    have hrec := ih (runOp st op) (h2.symm ▸ h1) hd'
    have hr : runOps st (op :: rest) = runOps (runOp st op) rest := rfl
    rw [hr]
    exact ⟨h2 ▸ hrec.1, h2 ▸ hrec.2⟩

/-- C5 counterexample: the claim quantifies over `advance_time` with any
`delta_ms` argument, but the source applies `current_ts += interval_ms`
with no clamp, so a single negative delta drives `current_ts` strictly
below `start_ts`, falsifying the claimed invariant `start_ts ≤ current_ts`
(and monotonicity) at this explicit input. -/
theorem C5_counterexample :
    (advance_time (BacktestState.init ["BTC-USDT"] 0 10) (-5)).current_ts <
      (BacktestState.init ["BTC-USDT"] 0 10).start_ts := by
  decide

/-- C5 (amended): across every sequence of operations whose `advance_time`
deltas are non-negative, `start_ts ≤ current_ts` holds; each such
`advance_time` step is monotone non-decreasing in `current_ts`; `reset`
restores `current_ts` to `start_ts`; and `is_finished()` is true exactly
when `current_ts` has reached `end_ts` or beyond (hence false while
`current_ts < end_ts`). -/
theorem C5_amended :
    (∀ (symbols : List String) (s e : Int) (ops : List ClockOp),
        (∀ d : Int, ClockOp.advance d ∈ ops → 0 ≤ d) →
        s ≤ (runOps (BacktestState.init symbols s e) ops).current_ts) ∧
    (∀ (st : BacktestState) (d : Int), 0 ≤ d →
        st.current_ts ≤ (advance_time st d).current_ts) ∧
    (∀ st : BacktestState, (Valuecell.reset st).current_ts = st.start_ts) ∧
    (∀ st : BacktestState, is_finished st = true ↔
        st.end_ts ≤ st.current_ts) := by
  refine ⟨?_, ?_, ?_, ?_⟩
  · intro symbols s e ops hd
    exact (runOps_start_le ops _ (le_refl _) hd).1
  · intro st d hd
    simp only [advance_time]
    omega
  · intro st
    rfl
  · intro st
    simp [is_finished]

theorem C5_witness :
    (0 : Int) ≤ (runOps (BacktestState.init ["BTC-USDT"] 0 10)
      [ClockOp.advance 3, ClockOp.query, ClockOp.reset,
       ClockOp.advance 4]).current_ts :=
  C5_amended.1 ["BTC-USDT"] 0 10 _ (by
    intro d hd
    simp only [List.mem_cons, List.not_mem_nil, or_false,
      ClockOp.advance.injEq, reduceCtorEq, false_or] at hd
    rcases hd with h | h <;> omega)

/-- C6 counterexample: the source computes
`min(100.0, (elapsed / total) * 100.0)` with no lower clamp at 0, so at a
state reachable by one negative `advance_time` the method returns a
negative value while the claimed `clamp(..., 0, 100)` formula
(`progress_spec`) returns 0. -/
theorem C6_counterexample :
    get_progress_pct (advance_time (BacktestState.init ["BTC-USDT"] 0 100)
      (-50)) ≠
    progress_spec (advance_time (BacktestState.init ["BTC-USDT"] 0 100)
      (-50)) := by
  have h1 : get_progress_pct (advance_time
      (BacktestState.init ["BTC-USDT"] 0 100) (-50)) = -50 := by
    norm_num [get_progress_pct, advance_time, BacktestState.init, min_def]
  have h2 : progress_spec (advance_time
      (BacktestState.init ["BTC-USDT"] 0 100) (-50)) = 0 := by
    norm_num [progress_spec, advance_time, BacktestState.init, min_def,
      max_def]
  rw [h1, h2]
  norm_num

/-- C6 (amended): `get_progress_pct()` equals the spec's
`clamp(100 * (current_ts - start_ts) / (end_ts - start_ts), 0, 100)`
whenever `start_ts ≤ current_ts` (the code omits only the lower clamp, so
the two differ exactly on states with `current_ts < start_ts`); it is
exactly 100 whenever `end_ts ≤ start_ts`; under `advance_time` with
non-negative deltas it is monotone non-decreasing; and it stays within
`[0, 100]` whenever `start_ts ≤ current_ts`. -/
theorem C6_amended :
    (∀ st : BacktestState, st.start_ts ≤ st.current_ts →
        get_progress_pct st = progress_spec st) ∧
    (∀ st : BacktestState, st.end_ts ≤ st.start_ts →
        get_progress_pct st = 100) ∧
    (∀ (st : BacktestState) (d : Int), 0 ≤ d →
        get_progress_pct st ≤ get_progress_pct (advance_time st d)) ∧
    (∀ st : BacktestState, st.start_ts ≤ st.current_ts →
        0 ≤ get_progress_pct st ∧ get_progress_pct st ≤ 100) := by
  refine ⟨?_, ?_, ?_, ?_⟩
  · intro st h
    unfold get_progress_pct progress_spec
    by_cases hc : st.end_ts ≤ st.start_ts
    · rw [if_pos hc, if_pos hc]
    · rw [if_neg hc, if_neg hc]
      have htot : (0 : ℚ) < ((st.end_ts - st.start_ts : Int) : ℚ) := by
        have h0 : (0 : Int) < st.end_ts - st.start_ts := by omega
        exact_mod_cast h0
      have hel : (0 : ℚ) ≤ ((st.current_ts - st.start_ts : Int) : ℚ) := by
        have h0 : (0 : Int) ≤ st.current_ts - st.start_ts := by omega
        exact_mod_cast h0
      rw [mul_comm, eq_comm, max_eq_right]
      exact le_min (by norm_num)
        (mul_nonneg (by norm_num) (div_nonneg hel htot.le))
  · intro st h
    unfold get_progress_pct
    rw [if_pos h]
  · intro st d hd
    unfold get_progress_pct
    dsimp only [advance_time]
    by_cases hc : st.end_ts ≤ st.start_ts
    · rw [if_pos hc, if_pos hc]
    · rw [if_neg hc, if_neg hc]
      have htot : (0 : ℚ) < ((st.end_ts - st.start_ts : Int) : ℚ) := by
        have h0 : (0 : Int) < st.end_ts - st.start_ts := by omega
        exact_mod_cast h0
      have hx : ((st.current_ts - st.start_ts : Int) : ℚ) ≤
          ((st.current_ts + d - st.start_ts : Int) : ℚ) := by
        have h0 : st.current_ts - st.start_ts ≤
            st.current_ts + d - st.start_ts := by omega
        exact_mod_cast h0
      gcongr
  · intro st h
    unfold get_progress_pct
    by_cases hc : st.end_ts ≤ st.start_ts
    · rw [if_pos hc]
      norm_num
    · rw [if_neg hc]
      have htot : (0 : ℚ) < ((st.end_ts - st.start_ts : Int) : ℚ) := by
        have h0 : (0 : Int) < st.end_ts - st.start_ts := by omega
        exact_mod_cast h0
      have hel : (0 : ℚ) ≤ ((st.current_ts - st.start_ts : Int) : ℚ) := by
        have h0 : (0 : Int) ≤ st.current_ts - st.start_ts := by omega
        exact_mod_cast h0
      refine ⟨le_min (by norm_num)
        (mul_nonneg (div_nonneg hel htot.le) (by norm_num)), min_le_left _ _⟩

theorem C6_witness :
    get_progress_pct (advance_time (BacktestState.init ["BTC-USDT"] 0 100)
      30) =
    progress_spec (advance_time (BacktestState.init ["BTC-USDT"] 0 100)
      30) :=
  C6_amended.1 _ (by decide)

/-- C10: calling `get_recent_candles` with `lookback = 0` returns, for
each requested symbol, all of that symbol's cached candles with
`ts ≤ current_ts` (because `available[-0:]` is the whole list), and for
every `lookback ≥ 1` it returns the last `lookback` available entries in
chronological order. -/
theorem C10_lookback_zero (st : BacktestState) (symbols : List String)
    (interval : String) :
    get_recent_candles st symbols interval 0 =
      symbols.flatMap (fun sym =>
        (st.candle_cache sym interval).filter
          (fun c => c.ts ≤ st.current_ts)) ∧
    ∀ (k : Int) (sym : String), 1 ≤ k →
      get_recent_candles st [sym] interval k =
        (((st.candle_cache sym interval).filter
          (fun c => c.ts ≤ st.current_ts)).reverse.take k.toNat).reverse := by
  constructor
  · unfold get_recent_candles
    congr 1
    funext sym
    dsimp only
    split
    · next h =>
      simp only [List.isEmpty_iff] at h
      simp [h]
    · simp [pySliceFrom]
  · intro k sym hk
    unfold get_recent_candles
    simp only [List.flatMap_cons, List.flatMap_nil, List.append_nil]
    rw [List.take_reverse, List.reverse_reverse]
    split
    · next h =>
      simp only [List.isEmpty_iff] at h
      simp [h]
    · unfold pySliceFrom
      rw [if_neg (by omega)]
      simp

/-- Sorting by timestamp yields a series whose adjacent pairs are
non-decreasing in `ts`. -/
theorem sortByTs_chain (l : List Candle) :
    (sortByTs l).Chain' (fun a b => a.ts ≤ b.ts) := by
  have hp := @List.sorted_mergeSort Candle
    (fun a b : Candle => decide (a.ts ≤ b.ts))
    (by intro a b c hab hbc; simp only [decide_eq_true_eq] at *; omega)
    (by intro a b; simpa using Int.le_total a.ts b.ts) l
  have hp' : (sortByTs l).Pairwise (fun a b => a.ts ≤ b.ts) := by
    simpa [sortByTs] using hp
  exact hp'.chain'

/-- Sorting by timestamp is a permutation of the input. -/
theorem sortByTs_perm (l : List Candle) : (sortByTs l).Perm l := by
  simpa [sortByTs] using List.mergeSort_perm l _

/-- After any `preload_data` call the preloaded flag is set. -/
theorem preload_data_is_preloaded (dflt : List String) (p : Provider)
    (st : BacktestState) (i : Option (List String)) :
    (preload_data dflt p st i).is_preloaded = true := by
  unfold preload_data
  split
  · next h => exact h
  · rfl

/-- Preloading one interval preserves sortedness of every cached series. -/
theorem preloadInterval_chain (p : Provider) (st : BacktestState)
    (itv : String)
    (h : ∀ sym i, (st.candle_cache sym i).Chain' (fun a b => a.ts ≤ b.ts)) :
    ∀ sym i, ((preloadInterval p st itv).candle_cache sym i).Chain'
      (fun a b => a.ts ≤ b.ts) := by
  intro sym i
  unfold preloadInterval
  dsimp only
  split
  · exact sortByTs_chain _
  · exact h sym i

/-- Folding `preloadInterval` over any interval list preserves sortedness
of every cached series. -/
theorem foldl_preloadInterval_chain (p : Provider) (itvs : List String)
    (st : BacktestState)
    (h : ∀ sym i, (st.candle_cache sym i).Chain' (fun a b => a.ts ≤ b.ts)) :
    ∀ sym i, ((itvs.foldl (preloadInterval p) st).candle_cache sym i).Chain'
      (fun a b => a.ts ≤ b.ts) := by
  induction itvs generalizing st with
  | nil => exact h
  | cons itv rest ih =>
    intro sym i
    exact ih (preloadInterval p st itv) (preloadInterval_chain p st itv h) sym i

/-- C4: sortedness invariant — after `preload_data` completes (on either
data source: the gather/sort/store logic is shared, with the class-specific
default interval list passed in), every `(symbol, interval)` series stored
in the candle cache has all adjacent pairs non-decreasing in timestamp,
provided every series already cached beforehand did (vacuously true for a
freshly constructed source, whose cache is empty). -/
theorem C4_sortedness (defaultIntervals : List String) (provider : Provider)
    (st : BacktestState) (intervals : Option (List String))
    (h : ∀ sym itv, (st.candle_cache sym itv).Chain' (fun a b => a.ts ≤ b.ts))
    (sym itv : String) :
    ((preload_data defaultIntervals provider st intervals).candle_cache
      sym itv).Chain' (fun a b => a.ts ≤ b.ts) := by
  unfold preload_data
  split
  · exact h sym itv
  · exact foldl_preloadInterval_chain provider _ st h sym itv

theorem C4_sortedness_witness :
    ((preload_data ["1m"] provW (BacktestState.init ["A", "B"] 0 100)
      none).candle_cache "B" "1m").Chain' (fun a b => a.ts ≤ b.ts) :=
  C4_sortedness ["1m"] provW (BacktestState.init ["A", "B"] 0 100) none
    (by intro sym itv; simp [BacktestState.init]) "B" "1m"

/-- C8: partial-failure tolerance of preload — when, in one preload pass,
the provider fetch for symbol `a` raises while the fetch for symbol `b`
succeeds with candles `cs`, `preload_data` completes (it is a total
function), symbol `a`'s cached series for that interval is empty, and
symbol `b`'s series holds exactly the fetched candles (a permutation of
`cs`), sorted ascending by timestamp. -/
theorem C8_partial_failure (defaultIntervals : List String)
    (provider : Provider) (st : BacktestState) (itv a b : String)
    (cs : List Candle)
    (hpre : st.is_preloaded = false)
    (ha : a ∈ st.symbols) (hb : b ∈ st.symbols)
    (hfa : provider a itv = none) (hfb : provider b itv = some cs) :
    (preload_data defaultIntervals provider st (some [itv])).candle_cache
      a itv = [] ∧
    (preload_data defaultIntervals provider st (some [itv])).candle_cache
      b itv = sortByTs cs ∧
    (sortByTs cs).Perm cs ∧
    (sortByTs cs).Chain' (fun x y => x.ts ≤ y.ts) := by
  have hstep : preload_data defaultIntervals provider st (some [itv]) =
      { preloadInterval provider st itv with is_preloaded := true } := by
    unfold preload_data
    rw [if_neg (by simp [hpre])]
    rfl
  refine ⟨?_, ?_, sortByTs_perm cs, sortByTs_chain cs⟩
  · rw [hstep]
    show (preloadInterval provider st itv).candle_cache a itv = []
    unfold preloadInterval
    dsimp only
    rw [if_pos ⟨ha, rfl⟩]
    simp [fetchSymbol, hfa, sortByTs]
  · rw [hstep]
    show (preloadInterval provider st itv).candle_cache b itv = sortByTs cs
    unfold preloadInterval
    dsimp only
    rw [if_pos ⟨hb, rfl⟩]
    simp [fetchSymbol, hfb]

theorem C8_partial_failure_witness :
    (preload_data ["1m"] provW (BacktestState.init ["A", "B"] 0 100)
      (some ["1m"])).candle_cache "A" "1m" = [] ∧
    (preload_data ["1m"] provW (BacktestState.init ["A", "B"] 0 100)
      (some ["1m"])).candle_cache "B" "1m" = sortByTs [candle20, candle5] :=
  ⟨(C8_partial_failure ["1m"] provW (BacktestState.init ["A", "B"] 0 100)
      "1m" "A" "B" [candle20, candle5] (by decide) (by decide) (by decide)
      (by decide) (by decide)).1,
   (C8_partial_failure ["1m"] provW (BacktestState.init ["A", "B"] 0 100)
      "1m" "A" "B" [candle20, candle5] (by decide) (by decide) (by decide)
      (by decide) (by decide)).2.1⟩

/-- C9: preload idempotence — once one `preload_data` call has completed,
any second call (with any intervals argument, and even a different
provider or default interval list) is a no-op: it returns without raising
and leaves the candle cache, the preloaded flag and the clock state
unchanged (the whole state is equal). -/
theorem C9_preload_idempotent (d1 d2 : List String) (p1 p2 : Provider)
    (st : BacktestState) (i1 i2 : Option (List String)) :
    preload_data d2 p2 (preload_data d1 p1 st i1) i2 =
      preload_data d1 p1 st i1 := by
  set r := preload_data d1 p1 st i1 with hr
  have h : r.is_preloaded = true := preload_data_is_preloaded d1 p1 st i1
  unfold preload_data
  simp [h]

theorem C10_lookback_zero_witness :
    get_recent_candles stW ["AAPL"] "1m" 0 =
      ["AAPL"].flatMap (fun sym =>
        (stW.candle_cache sym "1m").filter
          (fun c => c.ts ≤ stW.current_ts)) ∧
    get_recent_candles stW ["AAPL"] "1m" 1 =
      (((stW.candle_cache "AAPL" "1m").filter
        (fun c => c.ts ≤ stW.current_ts)).reverse.take (1 : Int).toNat).reverse :=
  ⟨(C10_lookback_zero stW ["AAPL"] "1m").1,
   (C10_lookback_zero stW ["AAPL"] "1m").2 1 "AAPL" (by decide)⟩

/-- Executing one instruction against a closed market with enforcement on
yields the market-closed rejection, whatever the price environment. -/
theorem executeOne_market_closed (gw : StockPaperExecutionGateway)
    (p : String → Option ℚ) (m : String → ℚ)
    (d : Option String → Option TradeSide) (inst : TradeInstruction)
    (henf : gw.enforce_market_hours = true) :
    executeOne gw false p m d inst =
      { instruction_id := inst.instruction_id, instrument := inst.instrument,
        side := resolveSide d inst, requested_qty := inst.quantity,
        filled_qty := 0, status := TxStatus.REJECTED,
        reason := some "market_closed", meta := inst.meta } := by
  unfold executeOne
  rw [henf]
  rfl

/-- Executing a batch against a closed market with enforcement on maps
every instruction to its market-closed rejection. -/
theorem execute_market_closed (gw : StockPaperExecutionGateway)
    (p : String → Option ℚ) (m : String → ℚ)
    (d : Option String → Option TradeSide)
    (insts : List TradeInstruction)
    (henf : gw.enforce_market_hours = true) :
    execute gw false p m d insts =
      insts.map (fun inst =>
        { instruction_id := inst.instruction_id,
          instrument := inst.instrument,
          side := resolveSide d inst, requested_qty := inst.quantity,
          filled_qty := 0, status := TxStatus.REJECTED,
          reason := some "market_closed", meta := inst.meta }) := by
  unfold execute
  congr 1
  funext inst
  exact executeOne_market_closed gw p m d inst henf

/-- C2 counterexample: the claim says the slippage `s` is the
instruction's max-slippage override *if present* else the default, but the
source computes `float(inst.max_slippage_bps or self._slippage_bps)`, and
Python treats a present-but-zero override as falsy: with override `0`,
reference price 100 and default slippage 10 bps, the fill price is
100 * (1 + 10/10000) = 1001/10, not the claimed 100 * (1 + 0/10000).
Moreover the claimed equality `fee_cost == E*q*(f/10000) + q*u` fails when
that amount is 0 (e.g. a zero-fee gateway): the source stores `None`
(`fee_cost if fee_cost > 0 else None`) rather than the claimed 0. -/
theorem C2_counterexample :
    ((executeOne gwC2 true primaryC2 priceMapC2 deriveSideW
      instC2).status = TxStatus.FILLED ∧
    (executeOne gwC2 true primaryC2 priceMapC2 deriveSideW
      instC2).avg_exec_price = some ((1001 : ℚ) / 10) ∧
    ((1001 : ℚ) / 10) ≠ (100 : ℚ) * (1 + 0 / 10000)) ∧
    ((executeOne gwZeroFee true primaryC2 priceMapC2 deriveSideW
      instW2).status = TxStatus.FILLED ∧
    (executeOne gwZeroFee true primaryC2 priceMapC2 deriveSideW
      instW2).fee_cost = none) := by
  refine ⟨⟨?_, ?_, by norm_num⟩, ?_, ?_⟩ <;>
    · simp only [executeOne, gwC2, gwZeroFee, primaryC2, priceMapC2,
        deriveSideW, instC2, instW2, resolveSide, resolveRefPrice,
        pyOrSlippage, instrW]
      norm_num

/-- C2 (amended): for every instruction the simulator fills (market-hours
gate passed, positive resolved reference price `P`), the result has status
FILLED, `filled_qty = requested_qty = quantity` (always a full fill),
`avg_exec_price = P * (1 + s/10000)` for BUY and `P * (1 - s/10000)` for
SELL, where `s` is the instruction's max-slippage override if present
*and non-zero* (a zero override is falsy in Python and falls back), else
the configured default; the fee follows
`E * qty * (fee_bps/10000) + qty * fee_per_share`, and `fee_cost`
records that amount when it is strictly positive and `None` otherwise
(likewise `slippage_bps` records `s` only when strictly positive). -/
theorem C2_amended (gw : StockPaperExecutionGateway) (marketOpen : Bool)
    (primaryPrice : String → Option ℚ) (priceMap : String → ℚ)
    (deriveSide : Option String → Option TradeSide)
    (inst : TradeInstruction)
    (hgate : (gw.enforce_market_hours && !marketOpen) = false)
    (href : 0 < resolveRefPrice (primaryPrice inst.instrument.symbol)
      (priceMap inst.instrument.symbol)) :
    executeOne gw marketOpen primaryPrice priceMap deriveSide inst =
      (let P := resolveRefPrice (primaryPrice inst.instrument.symbol)
        (priceMap inst.instrument.symbol)
       let s := pyOrSlippage inst.max_slippage_bps gw.slippage_bps
       let side := resolveSide deriveSide inst
       let E := if side = TradeSide.BUY then P * (1 + s / 10000)
         else P * (1 - s / 10000)
       let fee := E * inst.quantity * (gw.fee_bps / 10000) +
         inst.quantity * gw.fee_per_share
       { instruction_id := inst.instruction_id
         instrument := inst.instrument
         side := side
         requested_qty := inst.quantity
         filled_qty := inst.quantity
         avg_exec_price := some E
         slippage_bps := if 0 < s then some s else none
         fee_cost := if 0 < fee then some fee else none
         leverage := inst.leverage
         status := TxStatus.FILLED
         meta := inst.meta }) := by
  unfold executeOne
  rw [hgate]
  simp only [Bool.false_eq_true, if_false]
  rw [if_neg (not_le.mpr href)]

theorem C2_witness :
    (gwC2.enforce_market_hours && !true) = false ∧
    0 < resolveRefPrice (primaryC2 instW2.instrument.symbol)
      (priceMapC2 instW2.instrument.symbol) ∧
    executeOne gwC2 true primaryC2 priceMapC2 deriveSideW instW2 =
      { instruction_id := "i2", instrument := instrW,
        side := TradeSide.BUY, requested_qty := 2, filled_qty := 2,
        avg_exec_price := some ((1001 : ℚ) / 10),
        slippage_bps := some 10, fee_cost := some ((1001 : ℚ) / 5000),
        leverage := none, status := TxStatus.FILLED, reason := none,
        meta := none } := by
  refine ⟨by decide, by decide, ?_⟩
  have h := C2_amended gwC2 true primaryC2 priceMapC2 deriveSideW instW2
    (by decide) (by decide)
  rw [h]
  simp only [resolveRefPrice, pyOrSlippage, resolveSide, primaryC2,
    priceMapC2, deriveSideW, gwC2, instW2, instrW]
  norm_num

/-- C3: no-price rejection — whenever the market-hours gate passes but the
resolved reference price (primary lookup with snapshot/price-map fallback,
as computed by `resolveRefPrice`) is not positive, `execute`'s
per-instruction body returns (it is a total function, never raising) a
REJECTED result with reason "no_price_data" and `filled_qty = 0`; a
result carries reason "no_price_data" *only* under exactly that
condition; and the resolved price is non-positive precisely when neither
the primary lookup nor the fallback yields a positive price. -/
theorem C3_no_price_rejection (gw : StockPaperExecutionGateway)
    (marketOpen : Bool) (primaryPrice : String → Option ℚ)
    (priceMap : String → ℚ)
    (deriveSide : Option String → Option TradeSide)
    (inst : TradeInstruction) :
    ((gw.enforce_market_hours && !marketOpen) = false →
      resolveRefPrice (primaryPrice inst.instrument.symbol)
        (priceMap inst.instrument.symbol) ≤ 0 →
      executeOne gw marketOpen primaryPrice priceMap deriveSide inst =
        { instruction_id := inst.instruction_id,
          instrument := inst.instrument,
          side := resolveSide deriveSide inst,
          requested_qty := inst.quantity, filled_qty := 0,
          status := TxStatus.REJECTED, reason := some "no_price_data",
          meta := inst.meta }) ∧
    ((executeOne gw marketOpen primaryPrice priceMap deriveSide
        inst).reason = some "no_price_data" →
      (gw.enforce_market_hours && !marketOpen) = false ∧
      resolveRefPrice (primaryPrice inst.instrument.symbol)
        (priceMap inst.instrument.symbol) ≤ 0) ∧
    (∀ (pr : Option ℚ) (fb : ℚ), resolveRefPrice pr fb ≤ 0 ↔
      ((∀ p : ℚ, pr = some p → p ≤ 0) ∧ fb ≤ 0)) := by
  refine ⟨?_, ?_, ?_⟩
  · intro h1 h2
    unfold executeOne
    rw [h1]
    simp only [Bool.false_eq_true, if_false]
    rw [if_pos h2]
  · intro hreason
    unfold executeOne at hreason
    dsimp only at hreason
    split at hreason
    · next hb => exact absurd hreason (by simp)
    · next hb =>
      split at hreason
      · next hle => exact ⟨by simpa using hb, hle⟩
      · next hgt => exact absurd hreason (by simp)
  · intro pr fb
    cases pr with
    | none => simp [resolveRefPrice]
    | some p =>
      simp only [resolveRefPrice]
      by_cases hp : p ≤ 0
      · rw [if_pos hp]
        simp [hp]
      · rw [if_neg hp]
        constructor
        · intro h
          exact absurd h hp
        · rintro ⟨hall, -⟩
          exact absurd (hall p rfl) hp

theorem C3_witness :
    executeOne gwC2 true primaryNone priceMapC2 deriveSideW instW2 =
      { instruction_id := "i2", instrument := instrW,
        side := TradeSide.BUY, requested_qty := 2, filled_qty := 0,
        status := TxStatus.REJECTED, reason := some "no_price_data",
        meta := none } := by
  have h := (C3_no_price_rejection gwC2 true primaryNone priceMapC2
    deriveSideW instW2).1 (by decide) (by decide)
  rw [h]
  rfl

/-- C7: market-closed rejection — with market-hours enforcement configured
on and the US market closed (the `is_us_market_open` wall-clock check,
which returns false exactly on Saturday/Sunday or outside 09:30–16:00
Eastern), every executed instruction yields a REJECTED result with reason
"market_closed" and `filled_qty = 0`; and the results are independent of
the price lookups and of the fee/slippage configuration, i.e. no price
lookup, slippage, or fee computation affects them. -/
theorem C7_market_closed (gw : StockPaperExecutionGateway) (weekday : Nat)
    (t : ℚ) (primaryPrice : String → Option ℚ) (priceMap : String → ℚ)
    (deriveSide : Option String → Option TradeSide)
    (insts : List TradeInstruction)
    (henf : gw.enforce_market_hours = true)
    (hclosed : is_us_market_open weekday t = false) :
    execute gw (is_us_market_open weekday t) primaryPrice priceMap
        deriveSide insts =
      insts.map (fun inst =>
        { instruction_id := inst.instruction_id,
          instrument := inst.instrument,
          side := resolveSide deriveSide inst,
          requested_qty := inst.quantity, filled_qty := 0,
          status := TxStatus.REJECTED, reason := some "market_closed",
          meta := inst.meta }) ∧
    (is_us_market_open weekday t = false ↔
      5 ≤ weekday ∨ t < 9 * 3600 + 30 * 60 ∨ 16 * 3600 < t) ∧
    (∀ (gw2 : StockPaperExecutionGateway)
        (p2 : String → Option ℚ) (m2 : String → ℚ),
      gw2.enforce_market_hours = true →
      execute gw (is_us_market_open weekday t) primaryPrice priceMap
          deriveSide insts =
        execute gw2 (is_us_market_open weekday t) p2 m2 deriveSide insts) := by
  refine ⟨?_, ?_, ?_⟩
  · rw [hclosed]
    exact execute_market_closed gw primaryPrice priceMap deriveSide
      insts henf
  · unfold is_us_market_open
    by_cases hw : 5 ≤ weekday
    · simp [hw]
    · rw [if_neg hw]
      simp [hw, decide_eq_false_iff_not, not_and_or, not_le]
      rw [imp_iff_not_or, not_le]
  · intro gw2 p2 m2 henf2
    rw [hclosed]
    rw [execute_market_closed gw primaryPrice priceMap deriveSide
      insts henf]
    rw [execute_market_closed gw2 p2 m2 deriveSide insts henf2]

theorem C7_market_closed_witness :
    execute gwC7 (is_us_market_open 6 43200) primaryC2 priceMapC2
        deriveSideW [instW2] =
      [instW2].map (fun inst =>
        { instruction_id := inst.instruction_id,
          instrument := inst.instrument,
          side := resolveSide deriveSideW inst,
          requested_qty := inst.quantity, filled_qty := 0,
          status := TxStatus.REJECTED, reason := some "market_closed",
          meta := inst.meta }) :=
  (C7_market_closed gwC7 6 43200 primaryC2 priceMapC2 deriveSideW
    [instW2] (by decide) (by decide)).1

end Valuecell
